import Mathlib

/-!
# Verification of the sqirvy-cli multi-provider LLM client

Shallow embedding of the final snapshot of the repository
(package `sqirvy_cli/sqirvy_cli/sqirvy`) and proofs of the frozen claims
about its specification.

Conventions of the embedding:
* Python strings are `String`, Python floats used for temperature and
  temperature-scale are `ℚ` (all constants and comparisons in the source are
  exact decimals), Python ints are `Int`.
* A Python function that can `raise` (or `sys.exit(1)`) is embedded as an
  `Except`-valued function; distinct error constructors record which exit
  path was taken.
* The process environment and the file system are passed explicitly as
  functions `String → Option String` (variable/file name to value/content).
* The provider SDK handle (`llm`) is passed explicitly as a function; query
  functions additionally return the trace of SDK invocations (the list of
  argument pairs passed to `invoke`), so that "the SDK was called exactly
  once with these arguments / was never called" are provable statements.
-/

namespace Sqirvy

/-! ## models.py -/

/-- `MODEL_ALIAS` from models.py: alias table mapping short model names to
canonical ones. -/
def MODEL_ALIAS : List (String × String) :=
  [("claude-3-7-sonnet", "claude-3-7-sonnet-latest"),
   ("claude-3-5-sonnet", "claude-3-5-sonnet-latest"),
   ("claude-3-5-haiku", "claude-3-5-haiku-latest"),
   ("claude-3-opus", "claude-3-opus-latest")]

/-- Provider name constants from models.py. -/
def ANTHROPIC : String := "anthropic"

/-- Provider name constant from models.py. -/
def GEMINI : String := "gemini"

/-- Provider name constant from models.py. -/
def OPENAI : String := "openai"

/-- Provider name constant from models.py. -/
def LLAMA : String := "llama"

/-- `MODEL_TO_PROVIDER` from models.py: the static model→provider registry. -/
def MODEL_TO_PROVIDER : List (String × String) :=
  [("claude-3-7-sonnet-20250219", ANTHROPIC),
   ("claude-3-5-sonnet-20241022", ANTHROPIC),
   ("claude-3-7-sonnet-latest", ANTHROPIC),
   ("claude-3-5-sonnet-latest", ANTHROPIC),
   ("claude-3-5-haiku-latest", ANTHROPIC),
   ("claude-3-haiku-20240307", ANTHROPIC),
   ("claude-3-opus-latest", ANTHROPIC),
   ("claude-3-opus-20240229", ANTHROPIC),
   ("gemini-2.0-flash", GEMINI),
   ("gemini-1.5-flash", GEMINI),
   ("gemini-1.5-pro", GEMINI),
   ("gemini-2.0-flash-thinking-exp", GEMINI),
   ("gemini-2.5-pro-exp-03-25", GEMINI),
   ("gpt-4o", OPENAI),
   ("gpt-4o-mini", OPENAI),
   ("gpt-4-turbo", OPENAI),
   ("llama3.3-70b", LLAMA)]

/-- `get_model_alias` from models.py: `MODEL_ALIAS.get(model, model)`. -/
def get_model_alias (model : String) : String :=
  (MODEL_ALIAS.lookup model).getD model

/-- `get_provider_name` from models.py: resolves the alias, looks the result
up in `MODEL_TO_PROVIDER`, and raises `ValueError` (here: `.error`) when the
lookup returns a falsy value (`None` or — vacuously, the table holds no empty
strings — `""`); the local `resolved_model` of the source is inlined. -/
def get_provider_name (model : String) : Except String String :=
  match MODEL_TO_PROVIDER.lookup (get_model_alias model) with
  | some provider =>
      if provider = "" then
        .error ("Unrecognized provider: " ++ get_model_alias model)
      else
        .ok provider
  | none => .error ("Unrecognized provider: " ++ get_model_alias model)

/-- The four supported provider names, in the order they appear in models.py. -/
def PROVIDERS : List String := [ANTHROPIC, OPENAI, GEMINI, LLAMA]

/-! ## client.py -/

/-- `MAX_TOKENS_DEFAULT` from client.py. -/
def MAX_TOKENS_DEFAULT : Int := 4096

/-- `MIN_TEMPERATURE` from client.py (`0.01`). -/
def MIN_TEMPERATURE : ℚ := 1 / 100

/-- `MAX_TEMPERATURE` from client.py (`1.0`). -/
def MAX_TEMPERATURE : ℚ := 1

/-- `DEFAULT_TEMPERATURE_SCALE` from client.py (`2.0`). -/
def DEFAULT_TEMPERATURE_SCALE : ℚ := 2

/-- The attributes an `Options` object carries after `Options.__init__`
(client.py) has run: none of them is ever `None` afterwards. -/
structure Options where
  temperature : ℚ
  max_tokens : Int
  temperature_scale : ℚ
deriving DecidableEq

/-- `Options.__init__` from client.py: defaults a missing temperature to
`MIN_TEMPERATURE`, validates it against `[MIN_TEMPERATURE, MAX_TEMPERATURE]`
(raising `ValueError` otherwise), defaults a missing or non-positive
`max_tokens` to `MAX_TOKENS_DEFAULT`, and defaults a missing
`temperature_scale` to `DEFAULT_TEMPERATURE_SCALE`. -/
def Options.init (temperature : Option ℚ) (max_tokens : Option Int)
    (temperature_scale : Option ℚ) : Except String Options :=
  let temp_value := temperature.getD MIN_TEMPERATURE
  if ¬(MIN_TEMPERATURE ≤ temp_value ∧ temp_value ≤ MAX_TEMPERATURE) then
    .error ("Temperature must be between 0.01 and 1.0, got " ++ toString temp_value)
  else
    .ok { temperature := temp_value
          max_tokens :=
            match max_tokens with
            | some v => if v > 0 then v else MAX_TOKENS_DEFAULT
            | none => MAX_TOKENS_DEFAULT
          temperature_scale := temperature_scale.getD DEFAULT_TEMPERATURE_SCALE }

/-! ## prompts.py

The four system-prompt constants are long literal prose; per the spec the
prompt-template text content is an external collaborator and no claim
depends on it, so each constant is abbreviated here to a distinct
placeholder string standing for its literal text. -/

/-- `query_prompt` from prompts.py (literal prose abbreviated). -/
def query_prompt : String := "query_prompt"

/-- `plan_prompt` from prompts.py (literal prose abbreviated). -/
def plan_prompt : String := "plan_prompt"

/-- `code_prompt` from prompts.py (literal prose abbreviated). -/
def code_prompt : String := "code_prompt"

/-- `review_prompt` from prompts.py (literal prose abbreviated). -/
def review_prompt : String := "review_prompt"

/-! ## context.py -/

/-- `system_prompts` from context.py: command → system prompt. There is no
entry for `"help"`, so a lookup for it yields `none` exactly as the Python
`dict.get` yields `None`. -/
def system_prompts : List (String × String) :=
  [("query", query_prompt),
   ("plan", plan_prompt),
   ("code", code_prompt),
   ("review", review_prompt)]

/-- `SUPPORTED_COMMANDS` from context.py. -/
def SUPPORTED_COMMANDS : List String :=
  ["query", "plan", "code", "review", "help"]

/-- The `Context` dataclass from context.py. `system` is `Option String`
because `system_prompts.get(command)` returns `None` for `"help"`. -/
structure Context where
  command : String
  model : String
  provider : String
  temperature : ℚ
  files : List String
  system : Option String
  prompts : List String
deriving DecidableEq

/-- The distinct failure exits of `create_context` (context.py):
`sys.exit(1)` for an invalid command, a missing model or an out-of-range
temperature, the propagated `ValueError` of `get_provider_name` for an
unrecognized model, and `FileNotFoundError` for an unreadable file. -/
inductive CtxError where
  | invalidCommand (command : String)
  | missingModel
  | unrecognizedModel (message : String)
  | badTemperature
  | fileNotFound (file : String)
deriving DecidableEq

/-- The file loop of `create_context`: for each entry of `files`, a file
that does not exist as a readable local file (`fs file = none`) raises
`FileNotFoundError` on the spot; otherwise its content is appended. -/
def read_prompt_files (fs : String → Option String) :
    List String → Except CtxError (List String)
  | [] => .ok []
  | file :: rest =>
      match fs file with
      | none => .error (.fileNotFound file)
      | some content =>
          match read_prompt_files fs rest with
          | .error e => .error e
          | .ok rest_contents => .ok (content :: rest_contents)

/-- `create_context` from context.py, with the file system passed explicitly
as `fs : String → Option String` (name ↦ content of a readable local file).
Checks, in source order: the command against `SUPPORTED_COMMANDS`, a
non-empty model, the provider via `get_provider_name` (whose `ValueError`
propagates), the temperature against `(0, 1.0]`, then defaults an empty
prompt to `"hello world"` and assembles `prompts = [prompt] + file
contents`. -/
def create_context (fs : String → Option String) (command : String)
    (model : String) (temperature : ℚ) (files : List String)
    (prompt : String) : Except CtxError Context :=
  if command ∉ SUPPORTED_COMMANDS then .error (.invalidCommand command)
  else
    let system_prompt := system_prompts.lookup command
    if model = "" then .error .missingModel
    else
      let model := get_model_alias model
      match get_provider_name model with
      | .error e => .error (.unrecognizedModel e)
      | .ok provider =>
          if temperature ≤ 0 ∨ 1 < temperature then .error .badTemperature
          else
            let prompt := if prompt = "" then "hello world" else prompt
            match read_prompt_files fs files with
            | .error e => .error e
            | .ok file_contents =>
                .ok { command := command
                      model := model
                      provider := provider
                      temperature := temperature
                      files := files
                      system := system_prompt
                      prompts := prompt :: file_contents }

/-! ## env.py -/

/-- `get_env_var` from env.py, with the process environment passed explicitly
as `env : String → Option String`. `os.getenv(name, default)` falls back to
`default` only when the variable is unset; a required variable whose value is
falsy (`None` or the empty string) raises `ValueError`. -/
def get_env_var (env : String → Option String) (name : String)
    (required : Bool) (default : Option String) :
    Except String (Option String) :=
  let value := (env name).orElse (fun _ => default)
  if required ∧ (value = none ∨ value = some "") then
    .error (name ++ " environment variable not set")
  else
    .ok value

/-- Python's `str.upper()` as used on the (ASCII) provider names when the
env-variable names are formatted. -/
def py_upper (s : String) : String :=
  ⟨s.data.map Char.toUpper⟩

/-- `get_api_key` from env.py: reads `{PROVIDER}_API_KEY`, required. -/
def get_api_key (env : String → Option String) (provider : String) :
    Except String (Option String) :=
  get_env_var env (py_upper provider ++ "_API_KEY") true none

/-- `get_base_url` from env.py: reads `{PROVIDER}_BASE_URL`; it is required
exactly when no default is provided. -/
def get_base_url (env : String → Option String) (provider : String)
    (default : Option String) : Except String (Option String) :=
  get_env_var env (py_upper provider ++ "_BASE_URL") default.isNone default

/-! ## openai_client.py -/

/-- The constructor arguments handed to LangChain's `ChatOpenAI` in
`new_openai_client` (openai_client.py, `init_args`). -/
structure ChatOpenAI where
  api_key : Option String
  model : String
  base_url : Option String
deriving DecidableEq

/-- The `OpenAIClient` wrapper from openai_client.py: holds the SDK handle. -/
structure OpenAIClient where
  llm : ChatOpenAI
deriving DecidableEq

/-- `new_openai_client` from openai_client.py: fetches the required API key,
then the base URL with **no default** (so `OPENAI_BASE_URL` is required),
then builds the client. -/
def new_openai_client (env : String → Option String) (model : String) :
    Except String OpenAIClient :=
  match get_api_key env "openai" with
  | .error e => .error e
  | .ok api_key =>
      match get_base_url env "openai" none with
      | .error e => .error e
      | .ok base_url => .ok ⟨⟨api_key, model, base_url⟩⟩

/-! ## query.py (final revision: `query_text_langchain(llm, context)`) -/

/-- LangChain message objects built by `query_text_langchain`: one
`SystemMessage` (whose content may be `None` for the `"help"` command)
followed by `HumanMessage`s. -/
inductive Message where
  | system (content : Option String)
  | human (content : String)
deriving DecidableEq

/-- The SDK response: `content` is `some _` when the response object has an
extractable `content` attribute. -/
structure LLMResponse where
  content : Option String
deriving DecidableEq

/-- A value in the keyword-argument dictionary expanded into `llm.invoke`. -/
inductive KwArg where
  | str (value : String)
  | num (value : ℚ)
  | int (value : Int)
deriving DecidableEq

/-- The keyword-argument dictionary (`langchain_options`) passed to
`llm.invoke`. -/
abbrev LCOpts := List (String × KwArg)

/-- The provider SDK handle: `invoke(messages, **kwargs)`, which may fail. -/
abbrev LLM := List Message → LCOpts → Except String LLMResponse

/-- `query_text_langchain` from query.py (final revision): rejects an empty
`context.prompts` before anything else, builds the message list by appending
one `HumanMessage` per prompt after the `SystemMessage`, passes the — empty —
`langchain_options` dictionary to `llm.invoke`, extracts `response.content`,
and wraps any `ValueError` as `"LangChain API query failed: ..."`.

Besides the result it returns the trace of SDK invocations (the argument
pairs passed to `invoke`), so that claims about the SDK being called once or
never are statable. -/
def query_text_langchain (llm : LLM) (context : Context) :
    Except String String × List (List Message × LCOpts) :=
  if context.prompts.length = 0 then
    (.error "Prompts list cannot be empty for text query.", [])
  else
    let messages := context.prompts.foldl
      (fun acc p => acc ++ [Message.human p]) [Message.system context.system]
    let langchain_options : LCOpts := []
    match llm messages langchain_options with
    | .error e =>
        (.error ("LangChain API query failed: " ++ e),
         [(messages, langchain_options)])
    | .ok response =>
        match response.content with
        | some content => (.ok content, [(messages, langchain_options)])
        | none =>
            (.error ("LangChain API query failed: " ++
               "Failed to parse content from LLM response."),
             [(messages, langchain_options)])

/-! ## Provider clients: the effect of `query_text` on the shared Options

Each client's `query_text` begins by reconciling `options.temperature_scale`
with the provider constant before delegating to `query_text_langchain`.
After `Options.__init__`, `temperature_scale` is never `None`, so the
`is None` branches of the four sources are dead; what remains is each
client's assignment behaviour on the `Options` object it was handed, which
these functions return as the state of the object after the call. -/

/-- `ANTHROPIC_TEMP_SCALE` from anthropic_client.py (`1.0`). -/
def ANTHROPIC_TEMP_SCALE : ℚ := 1

/-- `GEMINI_TEMP_SCALE` from gemini_client.py (`1.0`). -/
def GEMINI_TEMP_SCALE : ℚ := 1

/-- `LLAMA_TEMP_SCALE` from llama_client.py (`1.0`). -/
def LLAMA_TEMP_SCALE : ℚ := 1

/-- `AnthropicClient.query_text` (anthropic_client.py): a scale different
from `ANTHROPIC_TEMP_SCALE` is overwritten (with a printed warning) by
`options.temperature_scale = ANTHROPIC_TEMP_SCALE`. -/
def AnthropicClient.query_text_options_after (options : Options) : Options :=
  if options.temperature_scale ≠ ANTHROPIC_TEMP_SCALE then
    { options with temperature_scale := ANTHROPIC_TEMP_SCALE }
  else options

/-- `GeminiClient.query_text` (gemini_client.py): a differing scale only
produces a printed warning; the options object is not assigned to. -/
def GeminiClient.query_text_options_after (options : Options) : Options :=
  options

/-- `OpenAIClient.query_text` (openai_client.py): only the dead `is None`
branch assigns; the options object is left as is. -/
def OpenAIClient.query_text_options_after (options : Options) : Options :=
  options

/-- `LlamaClient.query_text` (llama_client.py): only the dead `is None`
branch assigns; the options object is left as is. -/
def LlamaClient.query_text_options_after (options : Options) : Options :=
  options

/-! ## main.py -/

/-- Outcome of the main flow up to provider-client construction:
`client_construction_reached` records whether control flow arrived at the
`new_client` call. -/
structure PipelineResult where
  context_result : Except CtxError Context
  client_construction_reached : Bool

/-- The `try` block of `main` (main.py): `create_context` runs first; any of
its exceptions is caught and the process exits before `new_client` — and so
before any provider-client construction — is reached. -/
def run_cli (fs : String → Option String) (command : String) (model : String)
    (temperature : ℚ) (files : List String) (prompt : String) :
    PipelineResult :=
  match create_context fs command model temperature files prompt with
  | .error e => ⟨.error e, false⟩
  | .ok context => ⟨.ok context, true⟩

/-- Folding append-of-singleton over a list, as the message loop of
`query_text_langchain` does, appends the mapped list to the accumulator. -/
theorem foldl_append_map {α β : Type} (f : α → β) (l : List α)
    (acc : List β) :
    l.foldl (fun a p => a ++ [f p]) acc = acc ++ l.map f := by
  induction l generalizing acc with
  | nil => simp
  | cons x xs ih => simp [ih]

/-- Generic fact: a successful association-list lookup returns one of the
list's values. -/
theorem lookup_mem_values {α β : Type} [BEq α] [LawfulBEq α]
    (l : List (α × β)) (k : α) (v : β) (h : l.lookup k = some v) :
    v ∈ l.map Prod.snd := by
  induction l with
  | nil => simp [List.lookup] at h
  | cons p rest ih =>
      rw [List.lookup] at h
      by_cases hk : k == p.1
      · simp [hk] at h
        simp [← h]
      · simp [hk] at h
        exact List.mem_cons_of_mem _ (ih h)

/-- Every value stored in the model→provider registry is one of the four
provider names, and none of them is the empty string. -/
theorem registry_values_sound :
    ∀ p ∈ MODEL_TO_PROVIDER.map Prod.snd, p ∈ PROVIDERS ∧ p ≠ "" := by decide

/-- C3: every model string whose alias-resolved form is a key of the static
registry gets, through `get_provider_name`, a provider among the four
supported names {anthropic, openai, gemini, llama}; every string whose
alias-resolved form is not in the registry makes `get_provider_name` raise
(`ValueError` in the source, `.error` here) — it is never silently
defaulted. -/
theorem get_provider_name_total_on_registry :
    (∀ s p, MODEL_TO_PROVIDER.lookup (get_model_alias s) = some p →
      get_provider_name s = .ok p ∧ p ∈ PROVIDERS) ∧
    (∀ s, MODEL_TO_PROVIDER.lookup (get_model_alias s) = none →
      ∃ e, get_provider_name s = .error e) := by
  constructor
  · intro s p h
    have hp := registry_values_sound p
      (lookup_mem_values MODEL_TO_PROVIDER (get_model_alias s) p h)
    constructor
    · unfold get_provider_name
      rw [h]
      simp [hp.2]
    · exact hp.1
  · intro s h
    refine ⟨"Unrecognized provider: " ++ get_model_alias s, ?_⟩
    unfold get_provider_name
    rw [h]

/-- Witness for C3 at concrete inputs: `"gpt-4o"` is in the registry and maps
to `"openai"`, while `"not-a-model"` is rejected. -/
theorem get_provider_name_total_on_registry_witness :
    (get_provider_name "gpt-4o" = .ok "openai" ∧ "openai" ∈ PROVIDERS) ∧
    (∃ e, get_provider_name "not-a-model" = .error e) :=
  ⟨get_provider_name_total_on_registry.1 "gpt-4o" "openai" (by decide),
   get_provider_name_total_on_registry.2 "not-a-model" (by decide)⟩

/-- C10: alias resolution is idempotent (no alias target is itself an alias
key), every alias target is a key of the model→provider registry, and
provider lookup succeeds on un-pre-resolved alias names. -/
theorem get_model_alias_idempotent_closed :
    (∀ s, get_model_alias (get_model_alias s) = get_model_alias s) ∧
    (∀ kv ∈ MODEL_ALIAS, (MODEL_TO_PROVIDER.lookup kv.2).isSome) ∧
    (∀ s t, MODEL_ALIAS.lookup s = some t → ∃ p, get_provider_name s = .ok p) := by
  refine ⟨?_, by decide, ?_⟩
  · intro s
    cases h : MODEL_ALIAS.lookup s with
    | none =>
        unfold get_model_alias
        simp [h]
    | some t =>
        have ht := lookup_mem_values MODEL_ALIAS s t h
        have hs : get_model_alias s = t := by
          unfold get_model_alias
          rw [h]
          rfl
        rw [hs]
        simp only [ MODEL_ALIAS, List.map_cons, List.map_nil, List.mem_cons,
          List.not_mem_nil, or_false] at ht
        rcases ht with rfl | rfl | rfl | rfl <;> decide
  · intro s t h
    have ht := lookup_mem_values MODEL_ALIAS s t h
    have hs : get_model_alias s = t := by
      unfold get_model_alias
      rw [h]
      rfl
    refine ⟨"anthropic", ?_⟩
    unfold get_provider_name
    rw [hs]
    simp only [ MODEL_ALIAS, List.map_cons, List.map_nil, List.mem_cons,
      List.not_mem_nil, or_false] at ht
    rcases ht with rfl | rfl | rfl | rfl <;> rfl

/-- Witness for C10 at a concrete alias: `"claude-3-opus"` resolves to a
provider without pre-resolution, and resolution is idempotent on it. -/
theorem get_model_alias_idempotent_closed_witness :
    get_model_alias (get_model_alias "claude-3-opus") =
      get_model_alias "claude-3-opus" ∧
    ∃ p, get_provider_name "claude-3-opus" = .ok p :=
  ⟨get_model_alias_idempotent_closed.1 "claude-3-opus",
   get_model_alias_idempotent_closed.2.2 "claude-3-opus"
     "claude-3-opus-latest" (by decide)⟩

/-- C2: for every SDK handle and every context whose prompts list is empty,
`query_text_langchain` fails with the empty-prompt `ValueError` and the SDK
invocation trace is empty — the SDK is never called. -/
theorem query_empty_prompts_never_invokes_sdk (llm : LLM) (context : Context)
    (h : context.prompts = []) :
    query_text_langchain llm context =
      (.error "Prompts list cannot be empty for text query.", []) := by
  unfold query_text_langchain
  simp [h]

/-- Witness for C2 at a concrete context and a concrete (mock) SDK. -/
theorem query_empty_prompts_never_invokes_sdk_witness :
    query_text_langchain (fun _ _ => .ok ⟨some "hi"⟩)
      { command := "query", model := "gpt-4o", provider := "openai",
        temperature := 1/2, files := [], system := some query_prompt,
        prompts := [] } =
      (.error "Prompts list cannot be empty for text query.", []) :=
  query_empty_prompts_never_invokes_sdk _ _ rfl

/-- C6: for every query with a non-empty prompts list, the message sequence
handed to the SDK is exactly one system turn from `context.system` followed
by one user turn per entry of `context.prompts` in order, and its length is
`1 + context.prompts.length`. -/
theorem query_message_sequence (llm : LLM) (context : Context)
    (h : context.prompts ≠ []) :
    (query_text_langchain llm context).2 =
      [(Message.system context.system ::
          context.prompts.map Message.human, [])] ∧
    (Message.system context.system ::
        context.prompts.map Message.human).length =
      1 + context.prompts.length := by
  constructor
  · have hlen : ¬context.prompts.length = 0 := by simpa using h
    unfold query_text_langchain
    rw [if_neg hlen, foldl_append_map]
    simp only [List.singleton_append]
    split
    · rfl
    · split <;> rfl
  · simp [Nat.add_comm]

/-- Witness for C6 at a concrete context and mock SDK. -/
theorem query_message_sequence_witness :
    (query_text_langchain (fun _ _ => .ok ⟨some "ok"⟩)
        { command := "query", model := "gpt-4o", provider := "openai",
          temperature := 1/2, files := [], system := some query_prompt,
          prompts := ["a", "b"] }).2 =
      [(Message.system (some query_prompt) ::
          (["a", "b"] : List String).map Message.human, [])] ∧
    (Message.system (some query_prompt) ::
        (["a", "b"] : List String).map Message.human).length = 1 + 2 :=
  query_message_sequence _ _ (by decide)

/-- C1 counterexample: at a concrete context carrying `temperature = 7/10`
and default `max_tokens`, the single SDK invocation receives an **empty**
keyword-argument dictionary — in particular no `"temperature"` and no
`"max_tokens"` entry — so the temperature and max-token ceiling carried by
the Context/Options are not passed to the SDK, contrary to the claim. -/
theorem query_options_not_forwarded_counterexample :
    ((query_text_langchain (fun _ _ => .ok ⟨some "ok"⟩)
        { command := "query", model := "gpt-4o", provider := "openai",
          temperature := 7/10, files := [], system := some query_prompt,
          prompts := ["hi"] }).2).map Prod.snd = [([] : LCOpts)] ∧
    ([] : LCOpts).lookup "temperature" = none ∧
    ([] : LCOpts).lookup "max_tokens" = none :=
  ⟨rfl, rfl, rfl⟩

/-- C1 amended: for every query with a non-empty prompts list, the SDK is
invoked exactly once, and the keyword-argument dictionary of that invocation
is empty — the model, temperature and max-token values held by the
Context/Options are not forwarded through `invoke` (the model is bound
earlier, at SDK-handle construction). -/
theorem query_invokes_sdk_once_with_empty_options (llm : LLM)
    (context : Context) (h : context.prompts ≠ []) :
    ((query_text_langchain llm context).2).map Prod.snd = [([] : LCOpts)] := by
  have hlen : ¬context.prompts.length = 0 := by simpa using h
  unfold query_text_langchain
  rw [if_neg hlen, foldl_append_map]
  simp only [List.singleton_append]
  split
  · rfl
  · split <;> rfl

/-- Witness for the amended C1 at a concrete context and mock SDK. -/
theorem query_invokes_sdk_once_with_empty_options_witness :
    ((query_text_langchain (fun _ _ => .ok ⟨some "ok"⟩)
        { command := "query", model := "gpt-4o", provider := "openai",
          temperature := 7/10, files := [], system := some query_prompt,
          prompts := ["hi"] }).2).map Prod.snd = [([] : LCOpts)] :=
  query_invokes_sdk_once_with_empty_options _ _ (by decide)

/-- C4 counterexample: a blank (whitespace-only) prompt is truthy in Python,
so `create_context` keeps it verbatim: with `prompt = " "` and no files the
resulting prompts list is `[" "]`, not `["hello world"]`. -/
theorem blank_prompt_kept_counterexample :
    (create_context (fun _ => none) "query" "gpt-4o" 1 [] " ").map
        Context.prompts = .ok [" "] ∧
    ([" "] : List String) ≠ ["hello world"] :=
  ⟨rfl, by decide⟩

/-- C4 amended: `create_context` with an **empty-string** prompt and no files
yields a Context whose prompts list is exactly `["hello world"]` (empty input
never produces an empty prompts list); a whitespace-only prompt, being truthy,
is kept verbatim instead. -/
theorem empty_prompt_defaults_to_hello_world (fs : String → Option String)
    (command model : String) (t : ℚ) (provider : String)
    (hc : command ∈ SUPPORTED_COMMANDS) (hm : model ≠ "")
    (hp : get_provider_name (get_model_alias model) = .ok provider)
    (ht0 : 0 < t) (ht1 : t ≤ 1) :
    ∃ ctx, create_context fs command model t [] "" = .ok ctx ∧
      ctx.prompts = ["hello world"] := by
  unfold create_context
  rw [if_neg (by simpa using hc)]
  dsimp only
  rw [if_neg hm, hp]
  dsimp only
  rw [if_neg (by push_neg; exact ⟨ht0, ht1⟩)]
  exact ⟨_, rfl, rfl⟩

/-- Witness for the amended C4 at concrete inputs. -/
theorem empty_prompt_defaults_to_hello_world_witness :
    ∃ ctx, create_context (fun _ => none) "query" "gpt-4o" 1 [] "" =
        .ok ctx ∧ ctx.prompts = ["hello world"] :=
  empty_prompt_defaults_to_hello_world (fun _ => none) "query" "gpt-4o"
    1 "openai" (by decide) (by decide) rfl (by norm_num) (by norm_num)

/-- C5: a temperature outside `(0, 1.0]` makes Context construction fail (for
every command, model, file list and prompt — the failure is the dedicated
temperature exit when the earlier checks pass) and makes Options construction
raise its `ValueError`; no Context or Options carrying such a temperature
ever exists, so no network call can be attempted with it. -/
theorem temperature_out_of_range_rejected (t : ℚ) (ht : t ≤ 0 ∨ 1 < t) :
    (∀ fs command model files prompt,
      ∃ e, create_context fs command model t files prompt = .error e) ∧
    (∀ max_tokens temperature_scale,
      ∃ e, Options.init (some t) max_tokens temperature_scale = .error e) := by
  constructor
  · intro fs command model files prompt
    unfold create_context
    by_cases hc : command ∈ SUPPORTED_COMMANDS
    · rw [if_neg (by simpa using hc)]
      dsimp only
      by_cases hm : model = ""
      · rw [if_pos hm]
        exact ⟨_, rfl⟩
      · rw [if_neg hm]
        cases hp : get_provider_name (get_model_alias model) with
        | error e => exact ⟨_, rfl⟩
        | ok provider =>
            dsimp only
            rw [if_pos ht]
            exact ⟨_, rfl⟩
    · rw [if_pos (by simpa using hc)]
      exact ⟨_, rfl⟩
  · intro max_tokens temperature_scale
    unfold Options.init
    rw [if_pos (by
      rintro ⟨hmin, hmax⟩
      rcases ht with hle | hlt
      · exact absurd (le_trans hmin hle) (by norm_num [ MIN_TEMPERATURE])
      · exact absurd (lt_of_le_of_lt hmax hlt) (by norm_num [ MAX_TEMPERATURE]))]
    exact ⟨_, rfl⟩

/-- Witness for C5 at `t = 3/2` (the spec's example `1.5`). -/
theorem temperature_out_of_range_rejected_witness :
    (∃ e, create_context (fun _ => none) "query" "gpt-4o" (3/2) [] "hi" =
      .error e) ∧
    (∃ e, Options.init (some (3/2)) none none = .error e) :=
  ⟨(temperature_out_of_range_rejected (3/2) (by norm_num)).1
      (fun _ => none) "query" "gpt-4o" [] "hi",
   (temperature_out_of_range_rejected (3/2) (by norm_num)).2 none none⟩

/-- The file loop of `create_context` fails with `FileNotFoundError` whenever
some listed file is unreadable; the offending file is itself unreadable. -/
theorem read_prompt_files_error_of_missing (fs : String → Option String)
    (files : List String) (hfile : ∃ f ∈ files, fs f = none) :
    ∃ g, fs g = none ∧
      read_prompt_files fs files = .error (.fileNotFound g) := by
  induction files with
  | nil =>
      obtain ⟨f, hf, _⟩ := hfile
      exact absurd hf (List.not_mem_nil f)
  | cons x xs ih =>
      obtain ⟨f, hf, hfn⟩ := hfile
      cases hx : fs x with
      | none =>
          refine ⟨x, hx, ?_⟩
          unfold read_prompt_files
          rw [hx]
      | some c =>
          have hf' : f ∈ xs := by
            rcases List.mem_cons.mp hf with rfl | hmem
            · rw [hx] at hfn
              cases hfn
            · exact hmem
          obtain ⟨g, hg, hrec⟩ := ih ⟨f, hf', hfn⟩
          refine ⟨g, hg, ?_⟩
          unfold read_prompt_files
          rw [hx, hrec]

/-- C7: when the files list holds an entry that is not a readable local file
(and the earlier command/model/temperature checks pass), `create_context`
fails with `FileNotFoundError` naming an unreadable file, no Context is
produced, and the main flow never reaches provider-client construction. -/
theorem missing_file_aborts_before_client_construction
    (fs : String → Option String) (command model : String) (t : ℚ)
    (files : List String) (prompt : String) (provider : String)
    (hc : command ∈ SUPPORTED_COMMANDS) (hm : model ≠ "")
    (hp : get_provider_name (get_model_alias model) = .ok provider)
    (ht0 : 0 < t) (ht1 : t ≤ 1)
    (hfile : ∃ f ∈ files, fs f = none) :
    ∃ g, fs g = none ∧
      run_cli fs command model t files prompt =
        ⟨.error (.fileNotFound g), false⟩ := by
  obtain ⟨g, hg, hread⟩ := read_prompt_files_error_of_missing fs files hfile
  refine ⟨g, hg, ?_⟩
  have hcc : create_context fs command model t files prompt =
      .error (.fileNotFound g) := by
    unfold create_context
    rw [if_neg (by simpa using hc)]
    dsimp only
    rw [if_neg hm, hp]
    dsimp only
    rw [if_neg (by push_neg; exact ⟨ht0, ht1⟩), hread]
  unfold run_cli
  rw [hcc]

/-- Witness for C7 at the spec's example `files = ["does-not-exist.txt"]`. -/
theorem missing_file_aborts_before_client_construction_witness :
    ∃ g, (fun _ : String => (none : Option String)) g = none ∧
      run_cli (fun _ => none) "query" "gpt-4o" (1/2)
          ["does-not-exist.txt"] "hi" =
        ⟨.error (.fileNotFound g), false⟩ :=
  missing_file_aborts_before_client_construction (fun _ => none) "query"
    "gpt-4o" (1/2) ["does-not-exist.txt"] "hi" "openai" (by decide)
    (by decide) rfl (by norm_num) (by norm_num)
    ⟨"does-not-exist.txt", by simp, rfl⟩

/-- C8 counterexample: with `OPENAI_API_KEY` set (and non-empty) but no
`OPENAI_BASE_URL` in the environment, `new_openai_client` fails — absence of
the base-URL override IS an error for OpenAI, contrary to the claim. -/
theorem openai_base_url_absence_fails_counterexample :
    new_openai_client
        (fun name => if name = "OPENAI_API_KEY" then some "sk-test" else none)
        "gpt-4o" =
      .error "OPENAI_BASE_URL environment variable not set" := by
  rfl

/-- C8 amended: constructing the OpenAI client requires both
`OPENAI_API_KEY` and `OPENAI_BASE_URL`: `new_openai_client` requests the
base URL with no default, so when the key is set but the base-URL variable
is absent, construction fails with the missing-variable error (and with both
set non-empty it succeeds). -/
theorem openai_base_url_required (env : String → Option String)
    (model key : String) (hk : env "OPENAI_API_KEY" = some key)
    (hk2 : key ≠ "") (hb : env "OPENAI_BASE_URL" = none) :
    new_openai_client env model =
      .error "OPENAI_BASE_URL environment variable not set" := by
  have hku : (py_upper "openai" ++ "_API_KEY") = "OPENAI_API_KEY" := rfl
  have hbu : (py_upper "openai" ++ "_BASE_URL") = "OPENAI_BASE_URL" := rfl
  unfold new_openai_client get_api_key get_base_url get_env_var
  rw [hku, hbu, hk, hb]
  simp [hk2]

/-- Witness for the amended C8 at a concrete environment. -/
theorem openai_base_url_required_witness :
    new_openai_client
        (fun name => if name = "OPENAI_API_KEY" then some "sk-live" else none)
        "gpt-4o-mini" =
      .error "OPENAI_BASE_URL environment variable not set" :=
  openai_base_url_required _ "gpt-4o-mini" "sk-live" rfl (by decide) rfl

/-- C9 counterexample: the Anthropic client's `query_text` mutates the shared
Options: handed the default `temperature_scale = 2.0`, it overwrites it with
`1.0`, so the configuration observed after the call differs from the one
before it. -/
theorem anthropic_mutates_scale_counterexample :
    AnthropicClient.query_text_options_after
        { temperature := 1, max_tokens := 4096, temperature_scale := 2 } ≠
      { temperature := 1, max_tokens := 4096, temperature_scale := 2 } := by
  decide

/-- C9 amended: the Gemini, OpenAI and Llama clients leave the shared Options
unchanged by `query_text`, and no client ever mutates `temperature` or
`max_tokens`; the Anthropic client however normalizes `temperature_scale` to
`ANTHROPIC_TEMP_SCALE = 1.0`, overwriting any differing value. -/
theorem providers_options_mutation_profile (options : Options) :
    GeminiClient.query_text_options_after options = options ∧
    OpenAIClient.query_text_options_after options = options ∧
    LlamaClient.query_text_options_after options = options ∧
    (AnthropicClient.query_text_options_after options).temperature =
      options.temperature ∧
    (AnthropicClient.query_text_options_after options).max_tokens =
      options.max_tokens ∧
    (AnthropicClient.query_text_options_after options).temperature_scale =
      ANTHROPIC_TEMP_SCALE := by
  refine ⟨rfl, rfl, rfl, ?_, ?_, ?_⟩ <;>
    · unfold AnthropicClient.query_text_options_after
      by_cases h : options.temperature_scale = ANTHROPIC_TEMP_SCALE <;>
        simp [h]

end Sqirvy
